import Mathlib

/-!
Verification of the 3D tolerance-ring viewer (`src/js/ring3d.js`).

The file shallowly embeds the two functions of the source,
`create3DRingViewer` and `generateRing3D`, over the real numbers:
the wave-perturbed outer-boundary sampling loop (lines 39-50), the
derived radii (lines 30-31), the scene / camera / renderer / controls
construction, the returned handle bundle (lines 149-163), and the
chat-path wrapper with its defaulted parameters (lines 3, 167-184).
DOM lookup is modelled as a partial map from element ids to container
elements, and the side effects of the function are recorded as an
explicit effect trace.
-/

namespace Ring3D

/-- A container element, as far as the viewer reads it
(`container.clientWidth`, `container.clientHeight`). -/
structure Container where
  clientWidth : ℝ
  clientHeight : ℝ

/-- The document, modelled as the `getElementById` lookup the source
performs on line 5. -/
structure Document where
  byId : String → Option Container

/-- `document.getElementById(containerId)` (line 5). -/
def getElementById (doc : Document) (elemId : String) : Option Container :=
  doc.byId elemId

/-- `const waveAmplitude = 0.5` (line 36): wave height in mm. -/
def waveAmplitude : ℝ := 0.5

/-- `const outerRadius = bore / 2` (line 30). -/
noncomputable def outerRadius (bore : ℝ) : ℝ := bore / 2

/-- `const innerRadius = outerRadius - thickness` (line 31). -/
noncomputable def innerRadius (bore thickness : ℝ) : ℝ :=
  outerRadius bore - thickness

/-- `const angle = (i / waves) * Math.PI * 2` (line 40). -/
noncomputable def angle (waves i : ℕ) : ℝ :=
  ((i : ℝ) / (waves : ℝ)) * Real.pi * 2

/-- `const radius = outerRadius + (Math.sin(i * 2) * waveAmplitude)`
(line 41). -/
noncomputable def radius (outerR : ℝ) (i : ℕ) : ℝ :=
  outerR + Real.sin ((i : ℝ) * 2) * waveAmplitude

/-- The sampled boundary point of loop iteration `i`:
`x = Math.cos(angle) * radius`, `y = Math.sin(angle) * radius`
(lines 42-43). -/
noncomputable def ringPoint (outerR : ℝ) (waves i : ℕ) : ℝ × ℝ :=
  (Real.cos (angle waves i) * radius outerR i,
   Real.sin (angle waves i) * radius outerR i)

/-- The full point sequence of the outer-edge loop
`for (let i = 0; i <= waves; i++)` (lines 39-50): one point per
iteration, iterations `0, 1, ..., waves` in order. -/
noncomputable def outerEdgePoints (outerR : ℝ) (waves : ℕ) : List (ℝ × ℝ) :=
  (List.range (waves + 1)).map (fun i => ringPoint outerR waves i)

/-- The extruded ring profile: the wavy outer edge, the circular hole
of radius `innerRadius` (lines 53-55) and the extrusion depth
`height = width` (lines 32, 59). -/
structure RingGeometry where
  shapePoints : List (ℝ × ℝ)
  holeRadius : ℝ
  depth : ℝ

/-- The geometry built by lines 30-67 from the part parameters. -/
noncomputable def ringGeometryOf (bore width thickness : ℝ) (waves : ℕ) :
    RingGeometry :=
  { shapePoints := outerEdgePoints (outerRadius bore) waves
    holeRadius := innerRadius bore thickness
    depth := width }

/-- A 3-component vector (positions). -/
structure Vec3 where
  x : ℝ
  y : ℝ
  z : ℝ

/-- The objects added to the scene, in source order (lines 21-27,
80-91, 106-111). -/
inductive SceneObject where
  | ambientLight (color : ℕ) (intensity : ℝ)
  | directionalLight (color : ℕ) (intensity : ℝ) (position : Vec3)
      (castShadow : Bool)
  | ringMesh (geometry : RingGeometry) (rotationX : ℝ)
  | edgesMesh (rotationX : ℝ)
  | gridHelper (size : ℝ) (divisions : ℕ)
  | axesHelper (size : ℝ)

/-- `new THREE.Scene()` with its background (lines 9-10) and children. -/
structure Scene where
  background : ℕ
  children : List SceneObject

/-- `new THREE.PerspectiveCamera(45, aspect, 0.1, 1000)` (line 13)
positioned on line 94. -/
structure Camera where
  fov : ℝ
  aspect : ℝ
  near : ℝ
  far : ℝ
  position : Vec3

/-- The WebGL renderer as configured on lines 15-17. -/
structure Renderer where
  width : ℝ
  height : ℝ
  shadowMapEnabled : Bool

/-- The orbit controls as configured on lines 98-103. -/
structure Controls where
  enableDamping : Bool
  dampingFactor : ℝ
  screenSpacePanning : Bool
  minDistance : ℝ
  maxDistance : ℝ

/-- The `exportSTL` closure (lines 154-162): it downloads the STL
under the file name `partNumber + ".stl"` (line 160). -/
structure ExportAction where
  filename : String
deriving Repr

/-- The handle bundle returned on lines 149-163: exactly the scene,
camera, renderer and controls references plus the export action. -/
structure Ring3DHandle where
  scene : Scene
  camera : Camera
  renderer : Renderer
  controls : Controls
  exportSTL : ExportAction

/-- The observable side effects of `create3DRingViewer`, recorded in
source order: scene-graph construction, DOM mutation
(`container.appendChild`), and geometry construction. -/
inductive Effect where
  | sceneConstruction
  | domMutation
  | geometryConstruction
deriving Repr, DecidableEq

/-- Default of the `thickness` parameter (line 3). -/
def defaultThickness : ℝ := 0.203

/-- Default of the `waves` parameter (line 3). -/
def defaultWaves : ℕ := 16

/-- `create3DRingViewer(containerId, partNumber, bore, width,
thickness = 0.203, waves = 16)` (lines 3-164).  An absent optional
argument is modelled as `none` and resolved to the signature default,
as JavaScript does.  The result is the returned value (the handle
bundle, or nothing when the container lookup fails on lines 5-6)
together with the trace of construction effects. -/
noncomputable def create3DRingViewer (doc : Document)
    (containerId partNumber : String) (bore width : ℝ)
    (thicknessArg : Option ℝ) (wavesArg : Option ℕ) :
    Option Ring3DHandle × List Effect :=
  match getElementById doc containerId with
  | none => (none, [])
  | some container =>
    let thickness := thicknessArg.getD defaultThickness
    let waves := wavesArg.getD defaultWaves
    let aspect := container.clientWidth / container.clientHeight
    let geometry := ringGeometryOf bore width thickness waves
    let scene : Scene :=
      { background := 0xf8f9fa
        children :=
          [SceneObject.ambientLight 0xffffff 0.6,
           SceneObject.directionalLight 0xffffff 0.4 ⟨50, 50, 50⟩ true,
           SceneObject.ringMesh geometry (-(Real.pi / 2)),
           SceneObject.edgesMesh (-(Real.pi / 2)),
           SceneObject.gridHelper (bore * 2) 20,
           SceneObject.axesHelper bore] }
    let camera : Camera :=
      { fov := 45, aspect := aspect, near := 0.1, far := 1000
        position := ⟨bore * 1.5, bore * 1.5, bore * 1.5⟩ }
    let renderer : Renderer :=
      { width := container.clientWidth, height := container.clientHeight
        shadowMapEnabled := true }
    let controls : Controls :=
      { enableDamping := true, dampingFactor := 0.05
        screenSpacePanning := false
        minDistance := bore / 2, maxDistance := bore * 5 }
    (some { scene := scene, camera := camera, renderer := renderer
            controls := controls
            exportSTL := { filename := partNumber ++ ".stl" } },
     [Effect.sceneConstruction, Effect.domMutation,
      Effect.geometryConstruction, Effect.domMutation])

/-- The loading-placeholder markup returned by `generateRing3D`
(lines 169-176), reduced to its id and text. -/
def loadingHtml (containerId : String) : String :=
  "<div id=" ++ containerId ++ ">Loading 3D Model...</div>"

/-- `generateRing3D(partNumber, bore, width)` (lines 167-184): returns
the placeholder markup and defers a call of `create3DRingViewer` with
only four arguments, leaving `thickness` and `waves` absent.  The
time-derived container id is a parameter of the model. -/
noncomputable def generateRing3D (doc : Document)
    (containerId partNumber : String) (bore width : ℝ) :
    String × (Option Ring3DHandle × List Effect) :=
  (loadingHtml containerId,
   create3DRingViewer doc containerId partNumber bore width none none)

/-- C1: for every wave count `W ≥ 1`, base outer radius `R > 0` and
`i ∈ [0, W]`, the `i`-th sampled boundary point is
`(cos(2πi/W)·(R + 0.5·sin(2i)), sin(2πi/W)·(R + 0.5·sin(2i)))`. -/
theorem outerEdgePoints_formula (W : ℕ) (R : ℝ) (hW : 1 ≤ W) (hR : 0 < R)
    (i : ℕ) (hi : i ≤ W) :
    (outerEdgePoints R W)[i]? =
      some (Real.cos (2 * Real.pi * i / W) * (R + 0.5 * Real.sin (2 * i)),
            Real.sin (2 * Real.pi * i / W) * (R + 0.5 * Real.sin (2 * i))) := by
  have hlt : i < W + 1 := Nat.lt_succ_of_le hi
  simp only [outerEdgePoints, List.getElem?_map, List.getElem?_range, hlt,
    if_pos, Option.map_some]
  refine congrArg some (Prod.ext ?_ ?_) <;>
    · simp only [ringPoint, angle, radius, waveAmplitude]
      ring_nf

/-- Witness for C1 at `W = 1`, `R = 1`, `i = 1`. -/
theorem outerEdgePoints_formula_witness :
    (outerEdgePoints 1 1)[1]? =
      some (Real.cos (2 * Real.pi * 1 / 1) * (1 + 0.5 * Real.sin (2 * 1)),
            Real.sin (2 * Real.pi * 1 / 1) * (1 + 0.5 * Real.sin (2 * 1))) := by
  have h := outerEdgePoints_formula 1 1 le_rfl one_pos 1 le_rfl
  simpa using h

/-- C2: for every wave count `W ≥ 1` and radius `R > 0`, the sampling
produces exactly `W + 1` points. -/
theorem outerEdgePoints_length (W : ℕ) (R : ℝ) (hW : 1 ≤ W) (hR : 0 < R) :
    (outerEdgePoints R W).length = W + 1 := by
  simp [outerEdgePoints]

/-- Witness for C2 at `W = 1`, `R = 1`. -/
theorem outerEdgePoints_length_witness :
    (outerEdgePoints 1 1).length = 1 + 1 :=
  outerEdgePoints_length 1 1 le_rfl one_pos

/-- C3: for every wave count `W ≥ 1`, radius `R > 0` and `i ∈ [0, W]`,
the `i`-th sampled point lies at squared distance
`(R + 0.5·sin(2i))²` from the origin. -/
theorem outerEdgePoints_sq_dist (W : ℕ) (R : ℝ) (hW : 1 ≤ W) (hR : 0 < R)
    (i : ℕ) (hi : i ≤ W) (p : ℝ × ℝ)
    (hp : (outerEdgePoints R W)[i]? = some p) :
    p.1 ^ 2 + p.2 ^ 2 = (R + 0.5 * Real.sin (2 * i)) ^ 2 := by
  have hlt : i < W + 1 := Nat.lt_succ_of_le hi
  have hp' : p = ringPoint R W i := by
    simp only [outerEdgePoints, List.getElem?_map, List.getElem?_range, hlt,
      if_pos, Option.map_some] at hp
    exact (Option.some.inj hp).symm
  subst hp'
  have hpc := Real.sin_sq_add_cos_sq (angle W i)
  have hsin : Real.sin ((i : ℝ) * 2) = Real.sin (2 * (i : ℝ)) := by ring_nf
  simp only [ringPoint, radius, waveAmplitude, hsin]
  linear_combination ((R + Real.sin (2 * (i : ℝ)) * 0.5) ^ 2) * hpc

/-- Witness for C3 at `W = 1`, `R = 1`, `i = 0`. -/
theorem outerEdgePoints_sq_dist_witness :
    (ringPoint 1 1 0).1 ^ 2 + (ringPoint 1 1 0).2 ^ 2 =
      ((1 : ℝ) + 0.5 * Real.sin (2 * ((0 : ℕ) : ℝ))) ^ 2 :=
  outerEdgePoints_sq_dist 1 1 le_rfl one_pos 0 (Nat.zero_le 1)
    (ringPoint 1 1 0) (by simp [outerEdgePoints])

/-- Loop iteration 0 samples the point `(R, 0)`: the angle is `0` and
the perturbation `sin 0` vanishes. -/
theorem ringPoint_zero (R : ℝ) (W : ℕ) : ringPoint R W 0 = (R, 0) := by
  simp [ringPoint, angle, radius, waveAmplitude]

/-- Loop iteration `W` samples the point `(R + 0.5·sin(2W), 0)`: the
angle returns to `2π` but the perturbation `sin(2W)` does not return
to `sin 0`. -/
theorem ringPoint_last (R : ℝ) (W : ℕ) (hW : 1 ≤ W) :
    ringPoint R W W = (R + 0.5 * Real.sin (2 * (W : ℝ)), 0) := by
  have hW0 : (W : ℝ) ≠ 0 := Nat.cast_ne_zero.mpr (by omega)
  have ha : angle W W = 2 * Real.pi := by
    unfold angle; rw [div_self hW0]; ring
  have hs : Real.sin ((W : ℝ) * 2) = Real.sin (2 * (W : ℝ)) := by ring_nf
  refine Prod.ext ?_ ?_ <;>
    simp [ringPoint, radius, waveAmplitude, ha, hs, Real.cos_two_pi,
      Real.sin_two_pi]
  ring

/-- C4 counterexample: at `W = 1`, `R = 1` the last sampled point
(index `W`) differs from the first (index `0`), because
`sin 2 ≠ 0` perturbs the final radius. -/
theorem outerEdgePoints_loop_closure_fails :
    (outerEdgePoints 1 1)[1]? ≠ (outerEdgePoints 1 1)[0]? := by
  have h0 : (outerEdgePoints 1 1)[0]? = some (ringPoint 1 1 0) := by
    simp [outerEdgePoints]
  have h1 : (outerEdgePoints 1 1)[1]? = some (ringPoint 1 1 1) := by
    simp [outerEdgePoints]
  rw [h0, h1, ringPoint_zero, ringPoint_last 1 1 le_rfl]
  intro h
  have hx : (1 : ℝ) + 0.5 * Real.sin (2 * ((1 : ℕ) : ℝ)) = 1 := by
    have := congrArg Prod.fst (Option.some.inj h)
    simpa using this
  have hs : Real.sin 2 = 0 := by
    norm_num at hx
    linarith [hx]
  have hpos : (0 : ℝ) < Real.sin 2 :=
    Real.sin_pos_of_pos_of_lt_pi two_pos (by linarith [Real.pi_gt_three])
  linarith

/-- C4 amended: the sequence starts at `(R, 0)` and ends at
`(R + 0.5·sin(2W), 0)`; both endpoints lie on the x-axis but the
final radius carries the residual perturbation `0.5·sin(2W)`, so the
polyline is closed by the shape's implicit closing segment, not by
the last point equalling the first. -/
theorem outerEdgePoints_endpoints (W : ℕ) (R : ℝ) (hW : 1 ≤ W)
    (hR : 0 < R) :
    (outerEdgePoints R W)[0]? = some (R, 0) ∧
    (outerEdgePoints R W)[W]? =
      some (R + 0.5 * Real.sin (2 * (W : ℝ)), 0) := by
  constructor
  · have h0 : (0 : ℕ) < W + 1 := by omega
    simp [outerEdgePoints, h0, ringPoint_zero]
  · have h1 : W < W + 1 := by omega
    simp [outerEdgePoints, h1, ringPoint_last R W hW]

/-- Witness for the amended C4 at `W = 1`, `R = 1`. -/
theorem outerEdgePoints_endpoints_witness :
    (outerEdgePoints 1 1)[0]? = some ((1 : ℝ), (0 : ℝ)) ∧
    (outerEdgePoints 1 1)[1]? =
      some ((1 : ℝ) + 0.5 * Real.sin (2 * ((1 : ℕ) : ℝ)), 0) :=
  outerEdgePoints_endpoints 1 1 le_rfl one_pos

/-- C5: the boundary sampling is a pure function of `(R, W)`: runs on
equal inputs produce identical point sequences. -/
theorem outerEdgePoints_deterministic (R₁ R₂ : ℝ) (W₁ W₂ : ℕ)
    (hR : R₁ = R₂) (hW : W₁ = W₂) :
    outerEdgePoints R₁ W₁ = outerEdgePoints R₂ W₂ := by
  rw [hR, hW]

/-- Witness for C5 at `R = 1`, `W = 1`. -/
theorem outerEdgePoints_deterministic_witness :
    outerEdgePoints 1 1 = outerEdgePoints 1 1 :=
  outerEdgePoints_deterministic 1 1 1 1 rfl rfl

/-- C6 counterexample: with bore `10` and wall thickness `0.203`, the
hole radius of the constructed profile is `4.797`, not `10 / 2`. -/
theorem holeRadius_ne_half_bore :
    (ringGeometryOf 10 4 0.203 16).holeRadius ≠ (10 : ℝ) / 2 := by
  simp only [ringGeometryOf, innerRadius, outerRadius]
  norm_num

/-- C6 amended: the code treats `bore` as the outer diameter: the
outer radius of the profile is `b / 2` and the hole (inner) radius is
`b / 2 - t`, which equals `b / 2` only for wall thickness `t = 0`. -/
theorem holeRadius_eq_half_bore_sub_thickness (b w t : ℝ) (W : ℕ) :
    (ringGeometryOf b w t W).holeRadius = b / 2 - t ∧
    outerRadius b = b / 2 := by
  constructor <;> simp [ringGeometryOf, innerRadius, outerRadius]

/-- C7: when the container lookup fails the function returns no handle
and performs no scene, geometry or DOM construction; and the lookup
null-check is the only path with no handle, i.e. the only explicit
error handling. -/
theorem create3DRingViewer_null_check (doc : Document)
    (containerId partNumber : String) (bore width : ℝ)
    (thicknessArg : Option ℝ) (wavesArg : Option ℕ) :
    (getElementById doc containerId = none →
      create3DRingViewer doc containerId partNumber bore width
        thicknessArg wavesArg = (none, [])) ∧
    ((create3DRingViewer doc containerId partNumber bore width
        thicknessArg wavesArg).1 = none ↔
      getElementById doc containerId = none) := by
  constructor
  · intro h
    simp [create3DRingViewer, h]
  · cases h : getElementById doc containerId <;>
      simp [create3DRingViewer, h]

/-- Witness for C7 on a document with no elements. -/
theorem create3DRingViewer_null_check_witness :
    create3DRingViewer ⟨fun _ => none⟩ "c" "p" 10 4 none none =
      (none, []) :=
  (create3DRingViewer_null_check ⟨fun _ => none⟩ "c" "p" 10 4 none none).1
    rfl

/-- C8: whenever the container element exists, the function returns a
handle bundle (scene, camera, renderer, controls and the `exportSTL`
action, which downloads `partNumber + ".stl"`). -/
theorem create3DRingViewer_returns_handle (doc : Document)
    (containerId partNumber : String) (bore width : ℝ)
    (thicknessArg : Option ℝ) (wavesArg : Option ℕ) (c : Container)
    (h : getElementById doc containerId = some c) :
    ∃ hd : Ring3DHandle,
      (create3DRingViewer doc containerId partNumber bore width
        thicknessArg wavesArg).1 = some hd ∧
      hd.exportSTL.filename = partNumber ++ ".stl" := by
  simp only [create3DRingViewer, h]
  exact ⟨_, rfl, rfl⟩

/-- Witness for C8 on a document holding a 400×300 container. -/
theorem create3DRingViewer_returns_handle_witness :
    ∃ hd : Ring3DHandle,
      (create3DRingViewer ⟨fun _ => some ⟨400, 300⟩⟩ "c" "p" 10 4
        none none).1 = some hd ∧
      hd.exportSTL.filename = "p" ++ ".stl" :=
  create3DRingViewer_returns_handle ⟨fun _ => some ⟨400, 300⟩⟩ "c" "p"
    10 4 none none ⟨400, 300⟩ rfl

/-- C9: the chat-path entry point `generateRing3D` invokes the viewer
with the two optional arguments absent, so its viewer call is the
same as an explicit call with wall thickness `0.203` and wave count
`16`. -/
theorem generateRing3D_uses_defaults (doc : Document)
    (containerId partNumber : String) (bore width : ℝ) :
    (generateRing3D doc containerId partNumber bore width).2 =
      create3DRingViewer doc containerId partNumber bore width
        (some 0.203) (some 16) := by
  simp only [generateRing3D]
  cases h : getElementById doc containerId <;>
    simp [create3DRingViewer, h, defaultThickness, defaultWaves]

/-- C10: for every wave count `W ≥ 1` the angle sequence is strictly
increasing, starting at `0` for `i = 0` and ending at `2π` for
`i = W`. -/
theorem angle_strict_mono (W : ℕ) (hW : 1 ≤ W) :
    (∀ i j : ℕ, i < j → j ≤ W → angle W i < angle W j) ∧
    angle W 0 = 0 ∧ angle W W = 2 * Real.pi := by
  have hW0 : (0 : ℝ) < (W : ℝ) := by exact_mod_cast hW
  refine ⟨?_, ?_, ?_⟩
  · intro i j hij hjW
    unfold angle
    have hij' : (i : ℝ) < (j : ℝ) := by exact_mod_cast hij
    have key : (i : ℝ) / (W : ℝ) < (j : ℝ) / (W : ℝ) :=
      div_lt_div_of_pos_right hij' hW0
    exact mul_lt_mul_of_pos_right
      (mul_lt_mul_of_pos_right key Real.pi_pos) two_pos
  · simp [angle]
  · unfold angle
    rw [div_self (ne_of_gt hW0)]
    ring

/-- Witness for C10 at `W = 1`. -/
theorem angle_strict_mono_witness :
    angle 1 0 < angle 1 1 ∧ angle 1 0 = 0 ∧ angle 1 1 = 2 * Real.pi :=
  ⟨(angle_strict_mono 1 le_rfl).1 0 1 Nat.zero_lt_one le_rfl,
   (angle_strict_mono 1 le_rfl).2.1, (angle_strict_mono 1 le_rfl).2.2⟩

end Ring3D
